import Mathlib

/-!
# Verification of the scholarship manager core (src/updatabase.py)

Shallow embedding of the persistence and award-calculation logic of
`ScholarshipManager`:

* Python `str.strip` / `str.capitalize` / `str.upper` are embedded as
  functions on `String` (ASCII case mapping, which covers every string the
  program compares against).
* A Python dict-shaped student record (accessed via `dict.get`) is embedded
  as `StudentDict`, whose fields are `Option`-valued: `none` models a
  missing key, for which `get` returns Python `None`.
* Python `int` arithmetic is `Int`; the `float` results `deduction` and
  `net_payment` are embedded in `ℚ` (`TAX_RATE = 0.05 = 5/100`).
* The SQLite table is a list of rows; a fresh rowid is one more than the
  largest rowid in the table (SQLite `INTEGER PRIMARY KEY` assignment with
  no deletes, which the program never performs).  A fallible operation
  takes an explicit success flag standing for the underlying medium, and
  the `try/except` blocks become the two branches on that flag.
-/

namespace Scholarship

/-- Python `str.strip()`: remove leading and trailing whitespace. -/
def pyStrip (s : String) : String :=
  ⟨((s.data.dropWhile Char.isWhitespace).reverse.dropWhile Char.isWhitespace).reverse⟩

/-- Python `str.upper()`: upper-case every character. -/
def pyUpper (s : String) : String :=
  ⟨s.data.map Char.toUpper⟩

/-- Python `str.capitalize()`: first character upper-cased, all remaining
characters lower-cased. -/
def pyCapitalize (s : String) : String :=
  match s.data with
  | [] => ""
  | c :: rest => ⟨Char.toUpper c :: rest.map Char.toLower⟩

/-- `TAX_RATE = 0.05` from the source, as an exact rational. -/
def TAX_RATE : ℚ := 5 / 100

/-- Python truthiness of the value `dict.get` returns for an integer-valued
key: `None` (a missing key) and `0` are falsy, any other integer is truthy. -/
def pyTruthyInt : Option Int → Bool
  | none => false
  | some n => n != 0

/-- A dict-shaped student record as `calculate_award` receives it: each
field is the value `student.get(key)` yields, `none` when the key is
missing. -/
structure StudentDict where
  id : Option Int := none
  name : Option String := none
  gender : Option String := none
  state : Option String := none
  well_dressed : Option Int := none
  well_behaved : Option Int := none
deriving DecidableEq, Repr

/-- The dict `calculate_award` returns. -/
structure AwardResult where
  total_award : Int
  deduction : ℚ
  net_payment : ℚ
deriving DecidableEq, Repr

/-- `AWARD_ATTRIBUTES["well_dressed"]`. -/
def AWARD_well_dressed : Int := 10000
/-- `AWARD_ATTRIBUTES["general_gift"]` (base award). -/
def AWARD_general_gift : Int := 20000
/-- `AWARD_ATTRIBUTES["well_behaved"]`. -/
def AWARD_well_behaved : Int := 5000
/-- `AWARD_ATTRIBUTES["osun_state"]`. -/
def AWARD_osun_state : Int := 15000
/-- `AWARD_ATTRIBUTES["female_monthly"]`. -/
def AWARD_female_monthly : Int := 1000

/-- `ScholarshipManager.calculate_award` (src/updatabase.py lines 79-115):
base award, conditional bonuses read through `student.get`, then the 5%
deduction and the net payment. -/
def calculate_award (student : StudentDict) : AwardResult :=
  let total_award := AWARD_general_gift
  let total_award :=
    if pyTruthyInt student.well_dressed then total_award + AWARD_well_dressed else total_award
  let total_award :=
    if pyTruthyInt student.well_behaved then total_award + AWARD_well_behaved else total_award
  let total_award :=
    if student.state = some "OSUN" then total_award + AWARD_osun_state else total_award
  let total_award :=
    if student.gender = some "Female" then total_award + AWARD_female_monthly else total_award
  let deduction : ℚ := (total_award : ℚ) * TAX_RATE
  { total_award := total_award
    deduction := deduction
    net_payment := (total_award : ℚ) - deduction }

/-- Closed form of the total award computed by `calculate_award`. -/
theorem calculate_award_total_eq (d : StudentDict) :
    (calculate_award d).total_award =
      20000 + (if pyTruthyInt d.well_dressed then 10000 else 0)
            + (if pyTruthyInt d.well_behaved then 5000 else 0)
            + (if d.state = some "OSUN" then 15000 else 0)
            + (if d.gender = some "Female" then 1000 else 0) := by
  simp only [calculate_award, AWARD_general_gift, AWARD_well_dressed, AWARD_well_behaved,
    AWARD_osun_state, AWARD_female_monthly]
  split_ifs <;> ring

/-- C1: `calculate_award` returns `total_award` equal to 20000 plus 10000
when `well_dressed` is truthy, plus 5000 when `well_behaved` is truthy,
plus 15000 when `state` is exactly `"OSUN"`, plus 1000 when `gender` is
exactly `"Female"`; consequently `total_award` is always between 20000 and
51000. -/
theorem calculate_award_total_spec (d : StudentDict) :
    (calculate_award d).total_award =
      20000 + (if pyTruthyInt d.well_dressed then 10000 else 0)
            + (if pyTruthyInt d.well_behaved then 5000 else 0)
            + (if d.state = some "OSUN" then 15000 else 0)
            + (if d.gender = some "Female" then 1000 else 0)
    ∧ 20000 ≤ (calculate_award d).total_award
    ∧ (calculate_award d).total_award ≤ 51000 := by
  refine ⟨calculate_award_total_eq d, ?_, ?_⟩ <;>
    rw [calculate_award_total_eq d] <;> split_ifs <;> omega

/-- Every total award is a multiple of 20, so the 5% deduction is a whole
number of currency units. -/
theorem dvd_total_award (d : StudentDict) : (20 : Int) ∣ (calculate_award d).total_award := by
  rw [calculate_award_total_eq d]
  split_ifs <;> decide

/-- C2: `calculate_award` returns `deduction = total_award * TAX_RATE` with
the fixed rate `0.05`, and `net_payment = total_award - deduction` with the
deduction not rounded before the subtraction; moreover in exact (rational)
arithmetic both results are integer-valued, so formatting to 2 decimal
places and summing across records never shows rounding drift. -/
theorem calculate_award_deduction_spec (d : StudentDict) :
    (calculate_award d).deduction = ((calculate_award d).total_award : ℚ) * TAX_RATE
    ∧ (calculate_award d).net_payment =
        ((calculate_award d).total_award : ℚ) - (calculate_award d).deduction
    ∧ (∃ m : ℤ, (calculate_award d).deduction = (m : ℚ))
    ∧ (∃ k : ℤ, (calculate_award d).net_payment = (k : ℚ)) := by
  obtain ⟨m, hm⟩ := dvd_total_award d
  refine ⟨rfl, rfl, ⟨m, ?_⟩, ⟨19 * m, ?_⟩⟩
  · show ((calculate_award d).total_award : ℚ) * TAX_RATE = (m : ℚ)
    rw [hm, TAX_RATE]
    push_cast
    ring
  · show ((calculate_award d).total_award : ℚ) -
        ((calculate_award d).total_award : ℚ) * TAX_RATE = ((19 * m : ℤ) : ℚ)
    rw [hm, TAX_RATE]
    push_cast
    ring

/-- A row of the SQLite `students` table (all six columns populated). -/
structure StoredStudent where
  id : Nat
  name : String
  gender : String
  state : String
  well_dressed : Int
  well_behaved : Int
deriving DecidableEq, Repr

/-- The `students` table: the rows in insertion order. -/
structure Store where
  rows : List StoredStudent
deriving DecidableEq, Repr

/-- The empty table created by `create_table`. -/
def emptyStore : Store := ⟨[]⟩

/-- The largest rowid currently in the table (0 when empty). -/
def maxRowid (s : Store) : Nat := (s.rows.map StoredStudent.id).foldr max 0

/-- The rowid SQLite assigns to the next inserted row: one more than the
largest rowid in use (`INTEGER PRIMARY KEY` with no deletes, and the
program never deletes). -/
def nextRowid (s : Store) : Nat := maxRowid s + 1

/-- `ScholarshipManager.insert_student` (src/updatabase.py lines 63-77).
`writeOk` models whether the underlying write succeeds.  On success the
normalized row is committed and `lastrowid` is returned; on an sqlite
`Error` the handler reports it, nothing is committed, and `None` is
returned. -/
def insert_student (s : Store) (name gender state : String) (dressed behaved : Int)
    (writeOk : Bool) : Option Nat × Store :=
  if writeOk then
    let rid := nextRowid s
    (some rid,
      ⟨s.rows ++ [{ id := rid
                    name := pyStrip name
                    gender := pyCapitalize (pyStrip gender)
                    state := pyUpper (pyStrip state)
                    well_dressed := dressed
                    well_behaved := behaved }]⟩)
  else
    (none, s)

/-- The dict `get_all_scholarship_data` builds from a fetched row before
merging in the award figures: every key present. -/
def rowToDict (r : StoredStudent) : StudentDict :=
  { id := some (r.id : Int)
    name := some r.name
    gender := some r.gender
    state := some r.state
    well_dressed := some r.well_dressed
    well_behaved := some r.well_behaved }

/-- `ScholarshipManager.get_all_scholarship_data` (src/updatabase.py lines
117-144).  `readOk` models whether the SELECT succeeds.  On success every
row is returned as its dict paired with the merged-in `calculate_award`
result (`student.update(results)`); on an sqlite `Error` the handler
reports it and returns the empty list. -/
def get_all_scholarship_data (s : Store) (readOk : Bool) :
    List (StudentDict × AwardResult) :=
  if readOk then
    s.rows.map (fun r => (rowToDict r, calculate_award (rowToDict r)))
  else
    []

/-- C3: `insert_student` stores the name stripped, the gender stripped then
capitalized (first character upper, rest lower, with no validation against
any enum), and the state stripped then upper-cased; inserting state
`" osun "` then reading back yields exactly `"OSUN"`, and `calculate_award`
on that record includes the 15000 OSUN bonus (total 35000 for a record with
no other bonus). -/
theorem insert_student_normalizes :
    (∀ (s : Store) (name gender state : String) (d b : Int),
      ((insert_student s name gender state d b true).2).rows =
        s.rows ++ [{ id := nextRowid s
                     name := pyStrip name
                     gender := pyCapitalize (pyStrip gender)
                     state := pyUpper (pyStrip state)
                     well_dressed := d
                     well_behaved := b }])
    ∧ ((insert_student emptyStore "Bola" " nOnBiNary " "KANO" 0 0 true).2).rows.map
        StoredStudent.gender = ["Nonbinary"]
    ∧ ((get_all_scholarship_data (insert_student emptyStore "Ada" "male" " osun " 0 0 true).2
          true).map fun p => p.1.state) = [some "OSUN"]
    ∧ ((get_all_scholarship_data (insert_student emptyStore "Ada" "male" " osun " 0 0 true).2
          true).map fun p => p.2.total_award) = [20000 + 15000] := by
  refine ⟨fun s name gender state d b => rfl, ?_, ?_, ?_⟩ <;> decide

/-- C4 counterexample: `insert_student` performs no truthy/falsy coercion.
Passing the truthy integer 2 for `well_dressed` stores 2, not 1. -/
theorem insert_student_no_coercion_counterexample :
    ((insert_student emptyStore "Ada" "Male" "KANO" 2 0 true).2).rows.map
        StoredStudent.well_dressed = [2]
    ∧ (2 : Int) ≠ 1 ∧ (2 : Int) ≠ 0 := by
  decide

/-- C4 amended: `insert_student` stores `well_dressed` and `well_behaved`
exactly as passed, with no coercion; in particular an input that is already
0 or 1 is stored as that same 0 or 1. -/
theorem insert_student_flags_verbatim (s : Store) (name gender state : String) (d b : Int) :
    ((insert_student s name gender state d b true).2).rows.map StoredStudent.well_dressed =
      s.rows.map StoredStudent.well_dressed ++ [d]
    ∧ ((insert_student s name gender state d b true).2).rows.map StoredStudent.well_behaved =
      s.rows.map StoredStudent.well_behaved ++ [b] := by
  constructor <;> simp [insert_student]

/-- C5: when the underlying write fails, `insert_student` returns the
`None` failure signal (the caught-error path, not an uncaught fault) and
the store is unchanged, so the attempted record is discarded; when the
write succeeds the returned id is the new row's id and the committed record
is visible to a subsequent read. -/
theorem insert_student_error_spec (s : Store) (name gender state : String) (d b : Int) :
    insert_student s name gender state d b false = (none, s)
    ∧ (insert_student s name gender state d b true).1 = some (nextRowid s)
    ∧ (get_all_scholarship_data (insert_student s name gender state d b true).2 true).map
        Prod.fst =
      (get_all_scholarship_data s true).map Prod.fst ++
        [rowToDict { id := nextRowid s
                     name := pyStrip name
                     gender := pyCapitalize (pyStrip gender)
                     state := pyUpper (pyStrip state)
                     well_dressed := d
                     well_behaved := b }] := by
  refine ⟨rfl, rfl, ?_⟩
  simp [insert_student, get_all_scholarship_data]

/-- C6: `get_all_scholarship_data` returns every record in the store; on a
storage failure it returns the empty list instead of propagating the error
or a partial list; and on an empty store it returns the empty list, not an
error. -/
theorem get_all_scholarship_data_spec (s : Store) :
    (get_all_scholarship_data s true).map Prod.fst = s.rows.map rowToDict
    ∧ get_all_scholarship_data s false = []
    ∧ (∀ readOk : Bool, get_all_scholarship_data emptyStore readOk = []) := by
  refine ⟨?_, rfl, ?_⟩
  · simp [get_all_scholarship_data]
  · intro readOk
    cases readOk <;> rfl

/-- C8: `calculate_award` has no hidden state: its result is determined by
the four fields it reads (`well_dressed`, `well_behaved`, `state`,
`gender`), so two calls on records that agree on them — in particular two
calls on the same record — yield identical `total_award`, `deduction` and
`net_payment`. -/
theorem calculate_award_deterministic (d1 d2 : StudentDict)
    (hwd : d1.well_dressed = d2.well_dressed)
    (hwb : d1.well_behaved = d2.well_behaved)
    (hst : d1.state = d2.state)
    (hg : d1.gender = d2.gender) :
    calculate_award d1 = calculate_award d2 := by
  simp [calculate_award, hwd, hwb, hst, hg]

/-- Witness for C8 at two concrete records differing only in `id` and
`name`. -/
theorem calculate_award_deterministic_witness :
    calculate_award
        { id := some 1, name := some "Ada", gender := some "Female",
          state := some "OSUN", well_dressed := some 1, well_behaved := some 0 } =
      calculate_award
        { id := some 2, name := some "Bola", gender := some "Female",
          state := some "OSUN", well_dressed := some 1, well_behaved := some 0 } :=
  calculate_award_deterministic _ _ rfl rfl rfl rfl

/-- State-passing embedding of `calculate_award` for the frame property:
the Python body accesses `student` only through `dict.get` reads and
performs no assignment to it, so the record after the call is the record
that was passed in, alongside the computed result. -/
def calculate_award_run (student : StudentDict) : AwardResult × StudentDict :=
  (calculate_award student, student)

/-- C9: `calculate_award` never mutates the record it is given: every field
of the record is unchanged after the call. -/
theorem calculate_award_frame (d : StudentDict) :
    (calculate_award_run d).2.id = d.id
    ∧ (calculate_award_run d).2.name = d.name
    ∧ (calculate_award_run d).2.gender = d.gender
    ∧ (calculate_award_run d).2.state = d.state
    ∧ (calculate_award_run d).2.well_dressed = d.well_dressed
    ∧ (calculate_award_run d).2.well_behaved = d.well_behaved
    ∧ (calculate_award_run d).2 = d :=
  ⟨rfl, rfl, rfl, rfl, rfl, rfl, rfl⟩

/-- C10: `calculate_award` is total on malformed dicts: a missing key reads
as `None`, which is falsy and matches no string, so a record missing all of
`well_dressed`, `well_behaved`, `state` and `gender` gets exactly the base
award (total 20000, deduction 1000, net 19000), and each individual missing
key contributes nothing to the total. -/
theorem calculate_award_missing_fields :
    (∀ (i : Option Int) (n : Option String),
      calculate_award { id := i, name := n } =
        { total_award := 20000, deduction := 1000, net_payment := 19000 })
    ∧ (∀ d : StudentDict, d.well_dressed = none →
        (calculate_award d).total_award =
          20000 + (if pyTruthyInt d.well_behaved then 5000 else 0)
                + (if d.state = some "OSUN" then 15000 else 0)
                + (if d.gender = some "Female" then 1000 else 0))
    ∧ (∀ d : StudentDict, d.well_behaved = none →
        (calculate_award d).total_award =
          20000 + (if pyTruthyInt d.well_dressed then 10000 else 0)
                + (if d.state = some "OSUN" then 15000 else 0)
                + (if d.gender = some "Female" then 1000 else 0))
    ∧ (∀ d : StudentDict, d.state = none →
        (calculate_award d).total_award =
          20000 + (if pyTruthyInt d.well_dressed then 10000 else 0)
                + (if pyTruthyInt d.well_behaved then 5000 else 0)
                + (if d.gender = some "Female" then 1000 else 0))
    ∧ (∀ d : StudentDict, d.gender = none →
        (calculate_award d).total_award =
          20000 + (if pyTruthyInt d.well_dressed then 10000 else 0)
                + (if pyTruthyInt d.well_behaved then 5000 else 0)
                + (if d.state = some "OSUN" then 15000 else 0)) := by
  refine ⟨fun i n => ?_, fun d h => ?_, fun d h => ?_, fun d h => ?_, fun d h => ?_⟩
  · simp only [calculate_award, pyTruthyInt, AWARD_general_gift, TAX_RATE]
    simp
    norm_num
  all_goals rw [calculate_award_total_eq d, h]
  all_goals simp [pyTruthyInt]

/-- Witness for C10 at a concrete dict whose `state` key is missing. -/
theorem calculate_award_missing_fields_witness :
    (({ gender := some "Female", well_dressed := some 1, well_behaved := some 0 } :
        StudentDict)).state = none
    ∧ (calculate_award
          { gender := some "Female", well_dressed := some 1, well_behaved := some 0 }).total_award =
        20000 + (if pyTruthyInt (some 1) then 10000 else 0)
              + (if pyTruthyInt (some 0) then 5000 else 0)
              + (if (some "Female" : Option String) = some "Female" then 1000 else 0) :=
  ⟨rfl, calculate_award_missing_fields.2.2.2.1
    { gender := some "Female", well_dressed := some 1, well_behaved := some 0 } rfl⟩

/-- The rowids currently in the table, in row order. -/
def storeIds (s : Store) : List Nat := s.rows.map StoredStudent.id

/-- One requested `insert_student` call: the five arguments plus whether
the underlying write succeeds. -/
structure InsertReq where
  name : String
  gender : String
  state : String
  dressed : Int
  behaved : Int
  writeOk : Bool

/-- Run a sequence of `insert_student` calls, returning the final store and
the ids of the successful calls in order. -/
def runInserts : Store → List InsertReq → Store × List Nat
  | s, [] => (s, [])
  | s, req :: reqs =>
    let step := insert_student s req.name req.gender req.state req.dressed req.behaved req.writeOk
    let rest := runInserts step.2 reqs
    (rest.1, step.1.toList ++ rest.2)

theorem foldr_max_append (l : List ℕ) (a : ℕ) :
    (l ++ [a]).foldr max 0 = max (l.foldr max 0) a := by
  induction l with
  | nil => simp [Nat.max_comm]
  | cons b t ih => simp [ih, Nat.max_assoc]

theorem maxRowid_eq_foldr (s : Store) : maxRowid s = (storeIds s).foldr max 0 := rfl

theorem storeIds_insert_true (s : Store) (name gender state : String) (d b : Int) :
    storeIds (insert_student s name gender state d b true).2 =
      storeIds s ++ [nextRowid s] := by
  simp [storeIds, insert_student]

theorem maxRowid_insert_true (s : Store) (name gender state : String) (d b : Int) :
    maxRowid (insert_student s name gender state d b true).2 = nextRowid s := by
  rw [maxRowid_eq_foldr, storeIds_insert_true, foldr_max_append, ← maxRowid_eq_foldr,
    nextRowid]
  omega

/-- Invariants of a run of inserts from any starting store: every returned
id exceeds the starting max rowid, the returned ids are strictly
increasing, the max rowid never decreases, and the final table is the
starting table extended by exactly the successfully inserted rows. -/
theorem runInserts_spec (ops : List InsertReq) : ∀ s : Store,
    (∀ i ∈ (runInserts s ops).2, maxRowid s < i)
    ∧ (runInserts s ops).2.Pairwise (· < ·)
    ∧ maxRowid s ≤ maxRowid (runInserts s ops).1
    ∧ storeIds (runInserts s ops).1 = storeIds s ++ (runInserts s ops).2 := by
  induction ops with
  | nil => intro s; simp [runInserts]
  | cons req reqs ih =>
    intro s
    cases hw : req.writeOk with
    | false =>
      have hstep :
          insert_student s req.name req.gender req.state req.dressed req.behaved req.writeOk =
            (none, s) := by
        rw [hw]; rfl
      obtain ⟨ih1, ih2, ih3, ih4⟩ := ih s
      simp only [runInserts, hstep, Option.toList_none, List.nil_append]
      exact ⟨ih1, ih2, ih3, ih4⟩
    | true =>
      have hstep :
          insert_student s req.name req.gender req.state req.dressed req.behaved req.writeOk =
            (some (nextRowid s),
              (insert_student s req.name req.gender req.state req.dressed req.behaved true).2) := by
        rw [hw]; rfl
      obtain ⟨ih1, ih2, ih3, ih4⟩ :=
        ih (insert_student s req.name req.gender req.state req.dressed req.behaved true).2
      rw [maxRowid_insert_true] at ih1 ih3
      rw [storeIds_insert_true] at ih4
      simp only [runInserts, hstep, Option.toList_some, List.singleton_append]
      refine ⟨?_, ?_, ?_, ?_⟩
      · intro i hi
        rcases List.mem_cons.mp hi with h | h
        · subst h; exact Nat.lt_succ_self _
        · have h2 := ih1 i h
          unfold nextRowid at h2
          omega
      · exact List.pairwise_cons.mpr ⟨fun i hi => ih1 i hi, ih2⟩
      · exact le_trans (Nat.le_succ _) ih3
      · rw [ih4, List.append_assoc, List.singleton_append]

/-- C7: across any sequence of `insert_student` calls starting from the
empty table, each successful call returns a strictly larger id than every
previously returned id, the ids in the final table are exactly the returned
ids with no duplicates (never reused for a different record), and a failed
call leaves the table — and hence the next id to be assigned — unchanged. -/
theorem insert_ids_monotone (ops : List InsertReq) :
    (runInserts emptyStore ops).2.Pairwise (· < ·)
    ∧ storeIds (runInserts emptyStore ops).1 = (runInserts emptyStore ops).2
    ∧ (storeIds (runInserts emptyStore ops).1).Nodup
    ∧ (∀ (s : Store) (name gender state : String) (d b : Int),
        insert_student s name gender state d b false = (none, s)) := by
  obtain ⟨_, h2, _, h4⟩ := runInserts_spec ops emptyStore
  have hids : storeIds (runInserts emptyStore ops).1 = (runInserts emptyStore ops).2 := by
    simpa [emptyStore, storeIds] using h4
  refine ⟨h2, hids, ?_, fun s name gender state d b => rfl⟩
  rw [hids]
  exact h2.imp (fun h => Nat.ne_of_lt h)

end Scholarship
